import Mathlib

/-!
# Verification of the restorable-cli restore-verify-report pipeline

Shallow embedding of the core data model and operations of the
restorable-cli repository (Go), together with theorems settling the
frozen claims about its specification.

Source files embedded:
* `internal/schema` (schema.go): `Schema`, `Table`, `Column`, `Metrics`,
  `TableMetrics`, baseline store semantics.
* `internal/verify` (checker.go, tables.go, rowcount.go): `Level`,
  `CheckResult`, the table checkers, `CountFailures`.
* `internal/report` (report.go, sign.go): `Report`, `Summary`,
  `ReportBuilder.Build` / `computeSummary`, `Sign`, `Verify`.
* `internal/restore` (postgres.go): the restore attempt sequencing,
  duration bookkeeping and the metrics row-count fallback.
* `cmd/restorable/main.go` and `internal/cmd` (verify.go): error-to-exit-code
  mapping of the CLI.

Go `time.Time` values are modelled as `Nat` (nanoseconds since epoch),
`time.Duration` as `Nat` nanoseconds, Go `int`/`int64` as `Int` where a
value can be negative and `Nat` where the source only ever stores sizes.
External library primitives (Ed25519, base64, `time.Duration.String`) are
not code of this repository; they enter as explicit function parameters,
and the theorems that depend on their guarantees take those guarantees as
hypotheses stated at exactly the points the source relies on them.
-/

namespace Restorable

/-- From internal/schema/schema.go: `Column` (Name, DataType, Nullable). -/
structure Column where
  name : String
  dataType : String
  nullable : Bool
deriving DecidableEq, Repr

/-- From internal/schema/schema.go: `Table` (Name, Schema, ColumnCount, Columns). -/
structure Table where
  name : String
  schema : String
  columnCount : Int
  columns : List Column
deriving DecidableEq, Repr

/-- From internal/schema/schema.go: `Schema` (Version, Timestamp, Tables). -/
structure Schema where
  version : String
  timestamp : Nat
  tables : List Table
deriving DecidableEq, Repr

/-- From internal/schema/schema.go: `TableMetrics` (Name, Schema, RowCount). -/
structure TableMetrics where
  name : String
  schema : String
  rowCount : Int
deriving DecidableEq, Repr

/-- From internal/schema/schema.go: `Metrics` (Timestamp, RestoreDuration,
DBSizeBytes, TableMetrics). -/
structure Metrics where
  timestamp : Nat
  restoreDuration : Nat
  dbSizeBytes : Int
  tableMetrics : List TableMetrics
deriving DecidableEq, Repr

/-- From internal/verify/checker.go: `Level` — the three severity constants
`LevelCritical`, `LevelWarning`, `LevelInfo`. -/
inductive Level where
  | critical
  | warning
  | info
deriving DecidableEq, Repr

/-- From internal/verify/checker.go: `CheckResult` (Name, Level, Passed, Message). -/
structure CheckResult where
  name : String
  level : Level
  passed : Bool
  message : String
deriving DecidableEq, Repr

/-- From internal/report/report.go: `DatabaseInfo` (Type, MajorVersion, SizeBytes). -/
structure DatabaseInfo where
  type : String
  majorVersion : Int
  sizeBytes : Int
deriving DecidableEq, Repr

/-- From internal/report/report.go: `Summary` (Success, TotalChecks,
PassedChecks, FailedChecks, CriticalFailures, WarningFailures, RestoreDuration). -/
structure Summary where
  success : Bool
  totalChecks : Nat
  passedChecks : Nat
  failedChecks : Nat
  criticalFailures : Nat
  warningFailures : Nat
  restoreDuration : String
deriving DecidableEq, Repr

/-- From internal/report/report.go: `Report`. The `schema` and `metrics`
pointers are `Option`s (nil ↔ `none`); the signature is a string, `""`
playing the role of Go's empty/omitted signature. -/
structure Report where
  version : String
  id : String
  timestamp : Nat
  projectID : String
  projectName : String
  machineID : String
  backupSource : String
  database : DatabaseInfo
  schema : Option Schema
  metrics : Option Metrics
  checks : List CheckResult
  summary : Summary
  signature : String
deriving DecidableEq, Repr

/-! ## Report builder summary (internal/report/report.go, `computeSummary`) -/

/-- The counting loop of `ReportBuilder.computeSummary`: for the check list it
returns `(passed, failed, critical, warning)` exactly as the Go `for` loop
accumulates them (a failed check bumps `failed` and, per its level, `critical`
or `warning`; a failed info check bumps neither tally). -/
def countChecks : List CheckResult → Nat × Nat × Nat × Nat
  | [] => (0, 0, 0, 0)
  | c :: rest =>
    let r := countChecks rest
    if c.passed then (r.1 + 1, r.2.1, r.2.2.1, r.2.2.2)
    else
      match c.level with
      | .critical => (r.1, r.2.1 + 1, r.2.2.1 + 1, r.2.2.2)
      | .warning => (r.1, r.2.1 + 1, r.2.2.1, r.2.2.2 + 1)
      | .info => (r.1, r.2.1 + 1, r.2.2.1, r.2.2.2)

/-- `ReportBuilder.computeSummary` from internal/report/report.go.
`durString` stands for the Go standard library method
`time.Duration.String()` used on `Metrics.RestoreDuration`; when the report
carries no metrics the `RestoreDuration` field keeps its zero value `""`. -/
def computeSummary (durString : Nat → String) (checks : List CheckResult)
    (metrics : Option Metrics) : Summary :=
  let n := countChecks checks
  { success := n.2.2.1 == 0
    totalChecks := checks.length
    passedChecks := n.1
    failedChecks := n.2.1
    criticalFailures := n.2.2.1
    warningFailures := n.2.2.2
    restoreDuration :=
      match metrics with
      | some m => durString m.restoreDuration
      | none => "" }

/-- `ReportBuilder.Build` from internal/report/report.go: finalizes the report
by computing the summary from the accumulated checks and metrics. -/
def ReportBuilder.build (durString : Nat → String) (r : Report) : Report :=
  { r with summary := computeSummary durString r.checks r.metrics }

theorem countChecks_spec (checks : List CheckResult) :
    (countChecks checks).1 + (countChecks checks).2.1 = checks.length := by
  induction checks with
  | nil => rfl
  | cons c rest ih =>
    cases hc : c.passed
    · cases hl : c.level <;> simp [countChecks, hc, hl] <;> omega
    · simp [countChecks, hc]
      omega

/-- C2: for every check-result list (and any metrics and duration rendering),
the Summary computed by `ReportBuilder.Build` satisfies
`passed_checks + failed_checks = total_checks`, `total_checks` equals the
length of the check list, and `success` is true iff `critical_failures = 0`. -/
theorem build_summary_invariant (durString : Nat → String) (r : Report) :
    let s := (ReportBuilder.build durString r).summary
    s.passedChecks + s.failedChecks = s.totalChecks ∧
    s.totalChecks = r.checks.length ∧
    (s.success = true ↔ s.criticalFailures = 0) := by
  refine ⟨?_, rfl, ?_⟩
  · simpa [ReportBuilder.build, computeSummary] using countChecks_spec r.checks
  · simp [ReportBuilder.build, computeSummary]

theorem build_summary_invariant_witness :
    let s := (ReportBuilder.build (fun n => toString n)
      { version := "1", id := "w", timestamp := 0, projectID := "p"
        projectName := "n", machineID := "m", backupSource := "local"
        database := ⟨"postgres", 16, 0⟩, schema := none, metrics := none
        checks := [⟨"tables_exist", .critical, false, "x"⟩,
          ⟨"table_count", .warning, true, "y"⟩]
        summary := ⟨true, 0, 0, 0, 0, 0, ""⟩, signature := "" }).summary
    s.passedChecks + s.failedChecks = s.totalChecks ∧
    s.totalChecks = (Report.checks
      { version := "1", id := "w", timestamp := 0, projectID := "p"
        projectName := "n", machineID := "m", backupSource := "local"
        database := ⟨"postgres", 16, 0⟩, schema := none, metrics := none
        checks := [⟨"tables_exist", .critical, false, "x"⟩,
          ⟨"table_count", .warning, true, "y"⟩]
        summary := ⟨true, 0, 0, 0, 0, 0, ""⟩, signature := "" }).length ∧
    (s.success = true ↔ s.criticalFailures = 0) :=
  build_summary_invariant (fun n => toString n)
    { version := "1", id := "w", timestamp := 0, projectID := "p"
      projectName := "n", machineID := "m", backupSource := "local"
      database := ⟨"postgres", 16, 0⟩, schema := none, metrics := none
      checks := [⟨"tables_exist", .critical, false, "x"⟩,
        ⟨"table_count", .warning, true, "y"⟩]
      summary := ⟨true, 0, 0, 0, 0, 0, ""⟩, signature := "" }

/-! ## Table checkers (internal/verify/tables.go) -/

/-- The key built by `fmt.Sprintf("%s.%s", t.Schema, t.Name)` in
internal/verify/tables.go, used by all three table checkers to identify a
table. -/
def tableKey (t : Table) : String := t.schema ++ "." ++ t.name

/-- The list of missing baseline table keys computed by
`TablesExistChecker.Check`: baseline tables, in order, whose key is absent
from the set of current table keys. -/
def missingTables (current b : Schema) : List String :=
  (b.tables.map tableKey).filter (fun k => !(current.tables.map tableKey).contains k)

/-- `TablesExistChecker.Check` from internal/verify/tables.go. The Go
`ctx` and `metrics` arguments are unused by the checker and omitted. A nil
baseline pointer is `none`. -/
def tablesExistCheck (current : Schema) (baseline : Option Schema) : CheckResult :=
  match baseline with
  | none =>
    { name := "tables_exist", level := .critical, passed := true
      message := "No baseline schema available (first verification run)" }
  | some b =>
    let missing := missingTables current b
    if missing.length > 0 then
      { name := "tables_exist", level := .critical, passed := false
        message := "Missing " ++ toString missing.length ++ " tables: " ++
          String.intercalate ", " missing }
    else
      { name := "tables_exist", level := .critical, passed := true
        message := "All " ++ toString b.tables.length ++ " expected tables present" }

/-- `TableCountChecker.Check` from internal/verify/tables.go. -/
def tableCountCheck (current : Schema) (baseline : Option Schema) : CheckResult :=
  match baseline with
  | none =>
    { name := "table_count", level := .warning, passed := true
      message := "Found " ++ toString current.tables.length ++
        " tables (no baseline for comparison)" }
  | some b =>
    let diff : Int := (current.tables.length : Int) - (b.tables.length : Int)
    if diff = 0 then
      { name := "table_count", level := .warning, passed := true
        message := "Table count matches baseline: " ++
          toString current.tables.length ++ " tables" }
    else if diff > 0 then
      { name := "table_count", level := .warning, passed := true
        message := "Table count increased: " ++ toString current.tables.length ++
          " tables (+" ++ toString diff ++ " from baseline)" }
    else
      { name := "table_count", level := .warning, passed := false
        message := "Table count decreased: " ++ toString current.tables.length ++
          " tables (" ++ toString diff ++ " from baseline)" }

/-- A baseline table whose (namespace, name) pair occurs in no current table —
the spec's notion of a missing table for the Tables-exist checker. -/
def pairMissing (current : Schema) (t : Table) : Prop :=
  ∀ t' ∈ current.tables, ¬(t'.schema = t.schema ∧ t'.name = t.name)

instance (current : Schema) (t : Table) : Decidable (pairMissing current t) := by
  unfold pairMissing; infer_instance

/-- C4 counterexample: the claim says the Tables-exist checker fails if and
only if some baseline table, identified by the pair (namespace, name), is
missing from the current snapshot. The checker actually identifies tables by
the joined string `namespace ++ "." ++ name`, which conflates the pairs
("a.b", "c") and ("a", "b.c"): with baseline table ("a.b", "c") and current
table ("a", "b.c") the pair is missing yet the checker passes. -/
theorem tablesExist_pair_counterexample :
    let base : Schema := ⟨"1", 0, [⟨"c", "a.b", 0, []⟩]⟩
    let cur : Schema := ⟨"1", 0, [⟨"b.c", "a", 0, []⟩]⟩
    (tablesExistCheck cur (some base)).passed = true ∧
    ∃ t ∈ base.tables, pairMissing cur t := by
  constructor
  · rfl
  · exact ⟨⟨"c", "a.b", 0, []⟩, by simp, by decide⟩

/-- C4 (amended): the Tables-exist checker (critical level) passes when the
baseline is absent; with a baseline it fails iff some baseline table,
identified by the joined key string `namespace ++ "." ++ name`, is missing
from the current snapshot's keys, and on failure its message enumerates
exactly the missing keys (count plus comma-separated list, in baseline
order). -/
theorem tablesExistCheck_correct (current b : Schema) :
    (tablesExistCheck current none).level = .critical ∧
    (tablesExistCheck current none).passed = true ∧
    (tablesExistCheck current (some b)).level = .critical ∧
    ((tablesExistCheck current (some b)).passed = false ↔
      missingTables current b ≠ []) ∧
    (tablesExistCheck current (some b)).message =
      (if missingTables current b = [] then
        "All " ++ toString b.tables.length ++ " expected tables present"
      else
        "Missing " ++ toString (missingTables current b).length ++ " tables: " ++
          String.intercalate ", " (missingTables current b)) := by
  refine ⟨rfl, rfl, ?_, ?_, ?_⟩ <;>
    cases h : missingTables current b <;>
      simp [tablesExistCheck, h]

/-- C5: the Table-count checker (warning level) passes when the baseline is
absent; with a baseline it passes iff the current snapshot has at least as
many tables as the baseline (a strict decrease is the only failure). -/
theorem tableCountCheck_correct (current b : Schema) :
    (tableCountCheck current none).level = .warning ∧
    (tableCountCheck current none).passed = true ∧
    (tableCountCheck current (some b)).level = .warning ∧
    ((tableCountCheck current (some b)).passed = true ↔
      b.tables.length ≤ current.tables.length) := by
  refine ⟨rfl, rfl, ?_, ?_⟩ <;>
    · simp only [tableCountCheck]
      split <;> try split
      all_goals simp_all
      all_goals omega

theorem tablesExistCheck_correct_witness :
    (tablesExistCheck ⟨"1", 0, []⟩ none).level = .critical ∧
    (tablesExistCheck ⟨"1", 0, []⟩ none).passed = true ∧
    (tablesExistCheck ⟨"1", 0, []⟩
      (some ⟨"1", 0, [⟨"t", "public", 0, []⟩]⟩)).level = .critical ∧
    ((tablesExistCheck ⟨"1", 0, []⟩
        (some ⟨"1", 0, [⟨"t", "public", 0, []⟩]⟩)).passed = false ↔
      missingTables ⟨"1", 0, []⟩ ⟨"1", 0, [⟨"t", "public", 0, []⟩]⟩ ≠ []) ∧
    (tablesExistCheck ⟨"1", 0, []⟩
        (some ⟨"1", 0, [⟨"t", "public", 0, []⟩]⟩)).message =
      (if missingTables ⟨"1", 0, []⟩ ⟨"1", 0, [⟨"t", "public", 0, []⟩]⟩ = [] then
        "All " ++ toString (Schema.mk "1" 0 [⟨"t", "public", 0, []⟩]).tables.length ++
          " expected tables present"
      else
        "Missing " ++
          toString (missingTables ⟨"1", 0, []⟩
            ⟨"1", 0, [⟨"t", "public", 0, []⟩]⟩).length ++ " tables: " ++
          String.intercalate ", "
            (missingTables ⟨"1", 0, []⟩ ⟨"1", 0, [⟨"t", "public", 0, []⟩]⟩)) :=
  tablesExistCheck_correct ⟨"1", 0, []⟩ ⟨"1", 0, [⟨"t", "public", 0, []⟩]⟩

theorem tableCountCheck_correct_witness :
    (tableCountCheck ⟨"1", 0, []⟩ none).level = .warning ∧
    (tableCountCheck ⟨"1", 0, []⟩ none).passed = true ∧
    (tableCountCheck ⟨"1", 0, []⟩
      (some ⟨"1", 0, [⟨"t", "public", 0, []⟩]⟩)).level = .warning ∧
    ((tableCountCheck ⟨"1", 0, []⟩
        (some ⟨"1", 0, [⟨"t", "public", 0, []⟩]⟩)).passed = true ↔
      (Schema.mk "1" 0 [⟨"t", "public", 0, []⟩]).tables.length ≤
        (Schema.mk "1" 0 []).tables.length) :=
  tableCountCheck_correct ⟨"1", 0, []⟩ ⟨"1", 0, [⟨"t", "public", 0, []⟩]⟩

/-! ## Report signing (internal/report, sign.go)

Go `Sign` clears the signature field, serializes the report with
`json.Marshal`, signs the bytes with `ed25519.Sign`, and stores the
base64-encoded signature; `Verify` rebuilds the same signature-cleared
serialization and checks the stored signature with `ed25519.Verify`.
`json.Marshal` is injective on the report fields (fixed field order, typed
fields), so the canonical byte form is modelled as the signature-cleared
report value itself. The Ed25519 and base64 library primitives are
parameters (`edSign`, `edVerify`, `enc`, `dec`); the theorems assume their
documented guarantees exactly where the Go code relies on them. -/

/-- The signature-cleared report: the canonical form that is serialized and
signed/verified (`report.Signature = ""` before `json.Marshal`). -/
def clearSig (r : Report) : Report := { r with signature := "" }

/-- `Sign` from internal/report (sign.go): clear the signature, sign the
canonical form with the private key, store the encoded signature. -/
def Sign {Sig : Type} (edSign : Nat → Report → Sig) (enc : Sig → String)
    (priv : Nat) (r : Report) : Report :=
  { clearSig r with signature := enc (edSign priv (clearSig r)) }

/-- `Verify` from internal/report (sign.go): an empty signature is an error;
an undecodable signature is an error; otherwise the stored signature is
checked against the signature-cleared report with the public key. -/
def Verify {Sig : Type} (edVerify : Nat → Report → Sig → Bool)
    (dec : String → Option Sig) (pub : Nat) (r : Report) : Except String Bool :=
  if r.signature = "" then .error "report has no signature"
  else
    match dec r.signature with
    | none => .error "failed to decode signature"
    | some sig => .ok (edVerify pub (clearSig r) sig)

/-- C1: with the Ed25519/base64 contract assumed at the signed report
(signing verifies against the matching public key; the encoded signature is
non-empty and decodes back; a signature for one canonical form does not
verify any other), signing a report and verifying it returns true, and any
mutation of the signed report that changes a field of the canonical form
(for example flipping one check's passed flag) makes `Verify` return false. -/
theorem Sign_then_Verify {Sig : Type}
    (edSign : Nat → Report → Sig) (edVerify : Nat → Report → Sig → Bool)
    (enc : Sig → String) (dec : String → Option Sig)
    (priv pub : Nat) (r r' : Report)
    (hcorr : edVerify pub (clearSig r) (edSign priv (clearSig r)) = true)
    (henc : enc (edSign priv (clearSig r)) ≠ "")
    (hdec : dec (enc (edSign priv (clearSig r))) = some (edSign priv (clearSig r)))
    (hbind : edVerify pub (clearSig r') (edSign priv (clearSig r)) = true →
      clearSig r' = clearSig r) :
    Verify edVerify dec pub (Sign edSign enc priv r) = .ok true ∧
    (r'.signature = (Sign edSign enc priv r).signature →
      clearSig r' ≠ clearSig r →
      Verify edVerify dec pub r' = .ok false) := by
  have hsig : (Sign edSign enc priv r).signature = enc (edSign priv (clearSig r)) := rfl
  have hclear : clearSig (Sign edSign enc priv r) = clearSig r := rfl
  constructor
  · simp only [Verify, hsig, if_neg henc, hdec, hclear, hcorr]
  · intro hs hne
    simp only [Verify, hs, hsig, if_neg henc, hdec]
    cases hv : edVerify pub (clearSig r') (edSign priv (clearSig r))
    · rfl
    · exact absurd (hbind hv) hne

/-- C10: `Verify` on a report whose signature field is empty returns the
error "report has no signature" (not a valid/invalid verdict), and a
valid/invalid verdict (`.ok b`) is only ever produced for a report whose
signature is non-empty. -/
theorem Verify_unsigned {Sig : Type} (edVerify : Nat → Report → Sig → Bool)
    (dec : String → Option Sig) (pub : Nat) (r r' : Report) (b : Bool)
    (h : r.signature = "") :
    Verify edVerify dec pub r = .error "report has no signature" ∧
    (Verify edVerify dec pub r' = .ok b → r'.signature ≠ "") := by
  constructor
  · rw [Verify, if_pos h]
  · intro hv hemp
    rw [Verify, if_pos hemp] at hv
    exact Except.noConfusion hv

/-! ### Concrete instances for the signing theorems -/

/-- A small concrete report used to instantiate the signing theorems. -/
def rA : Report :=
  { version := "1", id := "run-1", timestamp := 0, projectID := "p"
    projectName := "proj", machineID := "m", backupSource := "local"
    database := ⟨"postgres", 16, 0⟩, schema := none, metrics := none
    checks := [⟨"tables_exist", .critical, true, "ok"⟩]
    summary := ⟨true, 1, 1, 0, 0, 0, "1s"⟩, signature := "" }

/-- `rA` signed and then mutated: one check's passed flag flipped. -/
def rMut : Report :=
  { Sign (fun _ _ => true) (fun s => if s then "s" else "t") 0 rA with
    checks := [⟨"tables_exist", .critical, false, "ok"⟩] }

/-- Toy signer standing in for `ed25519.Sign` in the witnesses. -/
def edSignT : Nat → Report → Bool := fun _ _ => true

/-- Toy verifier standing in for `ed25519.Verify` in the witnesses: accepts
exactly the canonical form of `rA` with the toy signature. -/
def edVerifyT : Nat → Report → Bool → Bool :=
  fun _ m s => decide (m = clearSig rA) && s

/-- Toy signature encoder standing in for base64 in the witnesses. -/
def encT : Bool → String := fun s => if s then "s" else "t"

/-- Toy signature decoder standing in for base64 in the witnesses. -/
def decT : String → Option Bool :=
  fun x => if x = "s" then some true else if x = "t" then some false else none

theorem Sign_then_Verify_witness :
    Verify edVerifyT decT 0 (Sign edSignT encT 0 rA) = .ok true ∧
    Verify edVerifyT decT 0 rMut = .ok false :=
  ⟨(Sign_then_Verify edSignT edVerifyT encT decT 0 0 rA rMut
      (by decide) (by decide) (by decide) (by decide)).1,
   (Sign_then_Verify edSignT edVerifyT encT decT 0 0 rA rMut
      (by decide) (by decide) (by decide) (by decide)).2 (by decide) (by decide)⟩

theorem Verify_unsigned_witness :
    Verify edVerifyT decT 0 rA = .error "report has no signature" ∧
    (Verify edVerifyT decT 0 rMut = .ok true → rMut.signature ≠ "") :=
  Verify_unsigned edVerifyT decT 0 rA rMut true rfl

/-! ## Restore attempt sequencing (internal/restore/postgres.go, `Restore`)

The container `Exec` calls are modelled by their observed results: the exit
code and combined output of each tool invocation, plus the wall-clock time
each attempt takes. The embedding reproduces the control flow of `Restore`
after the backup file has been staged at `/tmp/backup.dump`:
`restoreStart := time.Now()` is taken once, before the pg_restore attempt;
pg_restore exit 0 records the duration and succeeds; otherwise psql runs on
the same staged file; if psql also exits non-zero, a single error embeds
both exit codes and both outputs; if psql succeeds the duration recorded is
`time.Since(restoreStart)`, i.e. the time across both attempts. -/

/-- Exit code and combined output of one container subprocess execution. -/
structure ExecResult where
  exitCode : Int
  output : String
deriving DecidableEq, Repr

/-- The two restore tools `Restore` can invoke. -/
inductive RestoreTool where
  | pgRestore
  | psql
deriving DecidableEq, Repr

/-- The path of the staged artifact inside the container
(`containerBackupPath` in postgres.go). -/
def containerBackupPath : String := "/tmp/backup.dump"

/-- The error message built by `Restore` when both tools exit non-zero:
`"all restore methods failed.\n\npg_restore (exit %d):\n%s\n\npsql (exit %d):\n%s"`. -/
def bothFailedMessage (pg ps : ExecResult) : String :=
  "all restore methods failed.\n\npg_restore (exit " ++ toString pg.exitCode ++
    "):\n" ++ pg.output ++ "\n\npsql (exit " ++ toString ps.exitCode ++
    "):\n" ++ ps.output

/-- What one run of `Restore` does after staging: which tools it invoked on
which artifact path, the outcome, and the `restoreDuration` field it leaves
behind (0, Go's zero `time.Duration`, when never assigned). -/
structure RestoreRun where
  attempts : List (RestoreTool × String)
  outcome : Except String Unit
  restoreDuration : Nat
deriving Repr

/-- The attempt sequencing of `PostgresRestorer.Restore`
(internal/restore/postgres.go): `pg` and `ps` are the exec results of the
pg_restore and psql invocations, `pgDur` and `psDur` the wall-clock time
each attempt takes. -/
def restoreExec (pg ps : ExecResult) (pgDur psDur : Nat) : RestoreRun :=
  if pg.exitCode = 0 then
    { attempts := [(.pgRestore, containerBackupPath)]
      outcome := .ok (), restoreDuration := pgDur }
  else if ps.exitCode ≠ 0 then
    { attempts := [(.pgRestore, containerBackupPath), (.psql, containerBackupPath)]
      outcome := .error (bothFailedMessage pg ps), restoreDuration := 0 }
  else
    { attempts := [(.pgRestore, containerBackupPath), (.psql, containerBackupPath)]
      outcome := .ok (), restoreDuration := pgDur + psDur }

/-- `needle` occurs verbatim inside `hay`. -/
def strContains (hay needle : String) : Prop :=
  ∃ pre post : String, hay = pre ++ needle ++ post

theorem strContains_of_eq (pre post : String) {hay needle : String}
    (h : hay = pre ++ needle ++ post) : strContains hay needle :=
  ⟨pre, post, h⟩

/-- C6: whenever pg_restore exits non-zero, `Restore` attempts psql on the
same staged artifact before failing; and when psql also exits non-zero the
run fails with a single error that contains both attempts' exit codes and
both attempts' captured outputs. -/
theorem restore_fallback_diagnostics (pg ps : ExecResult) (pgDur psDur : Nat)
    (hpg : pg.exitCode ≠ 0) :
    (restoreExec pg ps pgDur psDur).attempts =
      [(.pgRestore, containerBackupPath), (.psql, containerBackupPath)] ∧
    (ps.exitCode ≠ 0 →
      (restoreExec pg ps pgDur psDur).outcome = .error (bothFailedMessage pg ps) ∧
      strContains (bothFailedMessage pg ps) (toString pg.exitCode) ∧
      strContains (bothFailedMessage pg ps) pg.output ∧
      strContains (bothFailedMessage pg ps) (toString ps.exitCode) ∧
      strContains (bothFailedMessage pg ps) ps.output) := by
  constructor
  · by_cases hps : ps.exitCode = 0 <;> simp [restoreExec, hpg, hps]
  · intro hps
    refine ⟨by simp [restoreExec, hpg, hps], ?_, ?_, ?_, ?_⟩
    · exact strContains_of_eq "all restore methods failed.\n\npg_restore (exit "
        ("):\n" ++ pg.output ++ "\n\npsql (exit " ++ toString ps.exitCode ++
          "):\n" ++ ps.output)
        (by simp only [bothFailedMessage, String.append_assoc])
    · exact strContains_of_eq
        ("all restore methods failed.\n\npg_restore (exit " ++
          toString pg.exitCode ++ "):\n")
        ("\n\npsql (exit " ++ toString ps.exitCode ++ "):\n" ++ ps.output)
        (by simp only [bothFailedMessage, String.append_assoc])
    · exact strContains_of_eq
        ("all restore methods failed.\n\npg_restore (exit " ++
          toString pg.exitCode ++ "):\n" ++ pg.output ++ "\n\npsql (exit ")
        ("):\n" ++ ps.output)
        (by simp only [bothFailedMessage, String.append_assoc])
    · exact strContains_of_eq
        ("all restore methods failed.\n\npg_restore (exit " ++
          toString pg.exitCode ++ "):\n" ++ pg.output ++ "\n\npsql (exit " ++
          toString ps.exitCode ++ "):\n")
        ""
        (by simp only [bothFailedMessage, String.append_assoc, String.append_empty])

theorem restore_fallback_diagnostics_witness :
    (restoreExec ⟨1, "pg says no"⟩ ⟨2, "psql says no"⟩ 5 2).attempts =
      [(.pgRestore, containerBackupPath), (.psql, containerBackupPath)] ∧
    ((2 : Int) ≠ 0 →
      (restoreExec ⟨1, "pg says no"⟩ ⟨2, "psql says no"⟩ 5 2).outcome =
        .error (bothFailedMessage ⟨1, "pg says no"⟩ ⟨2, "psql says no"⟩) ∧
      strContains (bothFailedMessage ⟨1, "pg says no"⟩ ⟨2, "psql says no"⟩)
        (toString (1 : Int)) ∧
      strContains (bothFailedMessage ⟨1, "pg says no"⟩ ⟨2, "psql says no"⟩)
        "pg says no" ∧
      strContains (bothFailedMessage ⟨1, "pg says no"⟩ ⟨2, "psql says no"⟩)
        (toString (2 : Int)) ∧
      strContains (bothFailedMessage ⟨1, "pg says no"⟩ ⟨2, "psql says no"⟩)
        "psql says no") :=
  restore_fallback_diagnostics ⟨1, "pg says no"⟩ ⟨2, "psql says no"⟩ 5 2 (by decide)

/-- C7 counterexample: the claim says the recorded restore duration is the
wall-clock duration of the successful attempt only. When pg_restore fails
after 5 units and psql then succeeds after 2 units, the code records 7 —
`time.Since(restoreStart)` measured from before the failed primary attempt —
not 2. -/
theorem restore_duration_counterexample :
    (restoreExec ⟨1, "err"⟩ ⟨0, ""⟩ 5 2).restoreDuration = 7 ∧ (7 : Nat) ≠ 2 :=
  ⟨by decide, by decide⟩

/-- C7 (amended): the recorded restore duration is measured from the start
of the primary attempt to the end of the successful attempt: it is the
primary attempt's duration when pg_restore succeeds, and the sum of the
failed primary attempt's duration and the fallback's duration when psql
succeeds after pg_restore failed. -/
theorem restore_duration_amended (pg ps : ExecResult) (pgDur psDur : Nat) :
    (pg.exitCode = 0 →
      (restoreExec pg ps pgDur psDur).restoreDuration = pgDur) ∧
    (pg.exitCode ≠ 0 → ps.exitCode = 0 →
      (restoreExec pg ps pgDur psDur).restoreDuration = pgDur + psDur) := by
  constructor
  · intro h
    simp [restoreExec, h]
  · intro hpg hps
    simp [restoreExec, hpg, hps]

theorem restore_duration_amended_witness :
    (restoreExec ⟨0, "ok"⟩ ⟨0, ""⟩ 5 2).restoreDuration = 5 ∧
    (restoreExec ⟨1, "err"⟩ ⟨0, ""⟩ 5 2).restoreDuration = 5 + 2 :=
  ⟨(restore_duration_amended ⟨0, "ok"⟩ ⟨0, ""⟩ 5 2).1 rfl,
   (restore_duration_amended ⟨1, "err"⟩ ⟨0, ""⟩ 5 2).2 (by decide) rfl⟩

/-! ## Metrics extraction (internal/restore/postgres.go, `ExtractMetrics`) -/

/-- `allZeroRowCounts` from internal/restore/postgres.go: true iff no entry
has a row count greater than zero. -/
def allZeroRowCounts : List TableMetrics → Bool
  | [] => true
  | m :: rest => if m.rowCount > 0 then false else allZeroRowCounts rest

/-- `getAccurateRowCounts` from internal/restore/postgres.go: one exact
`COUNT(*)` per user table. `userTables` is the (schema, name) list returned
by the `information_schema.tables` query; `countRows` is the
`SELECT COUNT(*)` result for a given schema and table name. -/
def getAccurateRowCounts (userTables : List (String × String))
    (countRows : String → String → Int) : List TableMetrics :=
  userTables.map (fun t => ⟨t.2, t.1, countRows t.1 t.2⟩)

/-- `ExtractMetrics` from internal/restore/postgres.go. `statRows` is the
per-table row-count list read from the live statistics view
`pg_stat_user_tables`; when it is empty or reports no positive count, the
table metrics are replaced by the exact per-table counts. -/
def extractMetrics (timestamp restoreDuration : Nat) (dbSize : Int)
    (statRows : List TableMetrics) (userTables : List (String × String))
    (countRows : String → String → Int) : Metrics :=
  let m : Metrics :=
    { timestamp := timestamp, restoreDuration := restoreDuration
      dbSizeBytes := dbSize, tableMetrics := statRows }
  if statRows.length = 0 || allZeroRowCounts statRows then
    { m with tableMetrics := getAccurateRowCounts userTables countRows }
  else m

theorem allZeroRowCounts_of_all_zero {statRows : List TableMetrics}
    (h : ∀ m ∈ statRows, m.rowCount = 0) : allZeroRowCounts statRows = true := by
  induction statRows with
  | nil => rfl
  | cons m rest ih =>
    have hm : m.rowCount = 0 := h m (List.mem_cons_self m rest)
    simp only [allZeroRowCounts, hm]
    exact ih fun x hx => h x (List.mem_cons_of_mem m hx)

/-- C9: when the row counts read from the live statistics view are an empty
list or are uniformly zero, `ExtractMetrics` falls back to the exact
`COUNT(*)` per user table, and the returned metrics carry exactly the
per-table counts that exact count produces. -/
theorem extractMetrics_fallback (timestamp restoreDuration : Nat) (dbSize : Int)
    (statRows : List TableMetrics) (userTables : List (String × String))
    (countRows : String → String → Int)
    (h : statRows = [] ∨ ∀ m ∈ statRows, m.rowCount = 0) :
    (extractMetrics timestamp restoreDuration dbSize statRows userTables
        countRows).tableMetrics =
      getAccurateRowCounts userTables countRows := by
  have hcond : (statRows.length = 0 || allZeroRowCounts statRows) = true := by
    rcases h with h | h
    · simp [h]
    · simp [allZeroRowCounts_of_all_zero h]
  simp only [extractMetrics, hcond, if_pos]

theorem extractMetrics_fallback_witness :
    (extractMetrics 0 7 42 [⟨"users", "public", 0⟩] [("public", "users")]
        (fun _ _ => 12)).tableMetrics =
      getAccurateRowCounts [("public", "users")] (fun _ _ => 12) :=
  extractMetrics_fallback 0 7 42 [⟨"users", "public", 0⟩] [("public", "users")]
    (fun _ _ => 12) (Or.inr (by decide))

/-! ## Baseline lifecycle in the verify pipeline (cmd verify.go, steps 9-11)

The tail of `verifyCmd.RunE` after the report is built: load result of the
baseline store for the project (step 6, `store0`), sign the report (step 9),
write it (step 10), and save the extracted schema as the new baseline only
when no baseline existed (step 11). The store content for the project is an
`Option Schema`; `signOk`/`writeOk` say whether `report.Sign` and
`report.WriteJSON` succeed. -/

/-- Steps 9-11 of `verifyCmd.RunE`: returns the final baseline-store content
for the project and the command outcome of those steps. A signing or write
failure returns early with an error and leaves the store untouched; the
extracted schema is saved only when the loaded baseline was absent. -/
def verifyTail (store0 : Option Schema) (extracted : Schema)
    (signOk writeOk : Bool) : Option Schema × Except String Unit :=
  if !signOk then (store0, .error "failed to sign report")
  else if !writeOk then (store0, .error "failed to write report")
  else
    match store0 with
    | none => (some extracted, .ok ())
    | some _ => (store0, .ok ())

/-- C8: if no baseline exists for the project, the extracted schema is saved
as the new baseline once signing and persisting the report succeed — and not
when signing fails; if a baseline already exists, the store content for the
project is left unchanged by the run, however the run ends. -/
theorem verifyTail_baseline_lifecycle (store0 : Option Schema)
    (extracted : Schema) (signOk writeOk : Bool) :
    (store0 = none → signOk = true → writeOk = true →
      (verifyTail store0 extracted signOk writeOk).1 = some extracted) ∧
    (signOk = false → (verifyTail store0 extracted signOk writeOk).1 = store0) ∧
    (∀ b, store0 = some b →
      (verifyTail store0 extracted signOk writeOk).1 = store0) := by
  refine ⟨?_, ?_, ?_⟩
  · intro h0 hs hw
    simp [verifyTail, h0, hs, hw]
  · intro hs
    simp [verifyTail, hs]
  · intro b h0
    cases signOk <;> cases writeOk <;> simp [verifyTail, h0]

theorem verifyTail_baseline_lifecycle_witness :
    (verifyTail none ⟨"1", 0, []⟩ true true).1 = some ⟨"1", 0, []⟩ ∧
    (verifyTail (some ⟨"1", 3, []⟩) ⟨"1", 0, []⟩ true true).1 =
      some ⟨"1", 3, []⟩ ∧
    (verifyTail none ⟨"1", 0, []⟩ false true).1 = none :=
  ⟨(verifyTail_baseline_lifecycle none ⟨"1", 0, []⟩ true true).1 rfl rfl rfl,
   (verifyTail_baseline_lifecycle (some ⟨"1", 3, []⟩) ⟨"1", 0, []⟩ true
      true).2.2 ⟨"1", 3, []⟩ rfl,
   (verifyTail_baseline_lifecycle none ⟨"1", 0, []⟩ false true).2.1 rfl⟩

/-! ## CLI exit codes (cmd/restorable/main.go and cmd verify.go)

`main` runs the cobra command tree and exits 3 whenever `Execute` returns an
error, 0 otherwise. `verifyCmd.RunE` returns an error when at least one
critical check failed and nil otherwise (warnings never produce an error).
So a run that reaches the final summary exits 3 on critical failures and 0
on warnings-only runs — while the repository's own documentation
(docs/commands.md "Exit Codes", the verification and troubleshooting docs)
promises exit 2 for critical failures, 1 for warnings only and 4 for
environment errors. -/

/-- `CountFailures` from internal/verify/checker.go: failed checks tallied
by level as (critical, warning, info). -/
def countFailures : List CheckResult → Nat × Nat × Nat
  | [] => (0, 0, 0)
  | c :: rest =>
    let r := countFailures rest
    if c.passed then r
    else
      match c.level with
      | .critical => (r.1 + 1, r.2.1, r.2.2)
      | .warning => (r.1, r.2.1 + 1, r.2.2)
      | .info => (r.1, r.2.1, r.2.2 + 1)

/-- The end of `verifyCmd.RunE` (cmd verify.go): after report signing and
persistence, the command returns an error iff at least one critical check
failed. `true` means an error is returned. -/
def verifyCmdReturnsError (results : List CheckResult) : Bool :=
  (countFailures results).1 > 0

/-- `main` from cmd/restorable/main.go: `os.Exit(3)` on any error from
`cmd.Execute()`, normal exit 0 otherwise. -/
def mainExitCode (cmdErr : Bool) : Nat := if cmdErr then 3 else 0

/-- The process exit code of a verify run that reaches the final summary. -/
def verifyExitCode (results : List CheckResult) : Nat :=
  mainExitCode (verifyCmdReturnsError results)

/-- C3 (code bug): evaluated at the failing inputs, the exit-code path gives
3 (not 2) for a run with one failed critical check and 0 (not 1) for a run
whose only failure is a warning-level check, contradicting the documented
exit codes the claim states. -/
theorem verifyExitCode_eval :
    verifyExitCode [⟨"tables_exist", .critical, false, "missing"⟩] = 3 ∧
    verifyExitCode [⟨"tables_exist", .critical, false, "missing"⟩] ≠ 2 ∧
    verifyExitCode [⟨"table_count", .warning, false, "decreased"⟩] = 0 ∧
    verifyExitCode [⟨"table_count", .warning, false, "decreased"⟩] ≠ 1 := by
  refine ⟨rfl, ?_, rfl, ?_⟩ <;> decide

end Restorable
